import Mathlib

/-!
# Verification of the dbt-mcp OAuth token lifecycle subsystem

Shallow embedding of the OAuth token lifecycle subsystem of the repository:
`src/dbt_mcp/oauth/dbt_platform.py`, `src/dbt_mcp/oauth/context_manager.py`,
`src/dbt_mcp/oauth/refresh_strategy.py`, `src/dbt_mcp/oauth/token_provider.py`,
`src/dbt_mcp/oauth/fastapi_app.py` and `src/dbt_mcp/config/settings.py`.

Conventions of the embedding:
* YAML documents are modelled at the value level (`YamlValue`); the string
  round trip performed by `yaml.dump` / `yaml.safe_load` is an external
  library guarantee and is not re-modelled.
* pydantic models become Lean structures; pydantic validation of a parsed
  YAML document becomes an `Except String` decoder mirroring pydantic v2
  behaviour: unknown keys are ignored (default `extra` policy), missing
  optional keys default to `None`, missing required keys and ill-typed
  values raise a validation error.
* Python exceptions become `Except String`; a `try/except` block becomes a
  total function that maps the error case to the handler's result.
* Unix timestamps are modelled as `Int` seconds.
-/

namespace DbtMcp

/-- A parsed YAML document, the result of `yaml.safe_load` on well-formed
input. Mappings are modelled as association lists with string keys. -/
inductive YamlValue where
  | null : YamlValue
  | bool (b : Bool) : YamlValue
  | int (n : Int) : YamlValue
  | str (s : String) : YamlValue
  | list (items : List YamlValue) : YamlValue
  | map (entries : List (String × YamlValue)) : YamlValue

/-- Truthiness of a Python `str | None` value: `None` and `""` are falsy. -/
def truthyStr : Option String → Bool
  | none => false
  | some s => !(s == "")

/-- Truthiness of a Python `int | None` value: `None` and `0` are falsy. -/
def truthyInt : Option Int → Bool
  | none => false
  | some n => !(n == 0)

/-- Truthiness of a Python `Model | None` value: model instances are always
truthy, only `None` is falsy. -/
def truthyObj {α : Type} : Option α → Bool
  | none => false
  | some _ => true

/-- Python `a or b` for optional values: `a` if truthy, else `b`. -/
def pyOr {α : Type} (truthy : Option α → Bool) (a b : Option α) : Option α :=
  if truthy a then a else b

/-- `AccessTokenResponse` from `oauth/token.py`. -/
structure AccessTokenResponse where
  access_token : String
  refresh_token : String
  expires_in : Int
  scope : String
  token_type : String
  expires_at : Int

/-- `DecodedAccessToken` from `oauth/token.py`; `decoded_claims` is a
`dict[str, Any]`, modelled as an association list of YAML values. -/
structure DecodedAccessToken where
  access_token_response : AccessTokenResponse
  decoded_claims : List (String × YamlValue)

/-- `DbtPlatformEnvironment` from `oauth/dbt_platform.py`. -/
structure DbtPlatformEnvironment where
  id : Int
  name : String
  deployment_type : String

/-- `DbtPlatformContext` from `oauth/dbt_platform.py`. All fields optional
with default `None`. Note: `user_id` is a read-only `@property` on the
Python class, not a pydantic field. -/
structure DbtPlatformContext where
  decoded_access_token : Option DecodedAccessToken := none
  host_prefix : Option String := none
  dev_environment : Option DbtPlatformEnvironment := none
  prod_environment : Option DbtPlatformEnvironment := none
  account_id : Option Int := none

/-- `DbtPlatformContext.override` (`oauth/dbt_platform.py` lines 86-94):
field by field Python `or` of the other (new) context over `self`. -/
def DbtPlatformContext.override (self other : DbtPlatformContext) :
    DbtPlatformContext where
  dev_environment := pyOr truthyObj other.dev_environment self.dev_environment
  prod_environment := pyOr truthyObj other.prod_environment self.prod_environment
  decoded_access_token :=
    pyOr truthyObj other.decoded_access_token self.decoded_access_token
  host_prefix := pyOr truthyStr other.host_prefix self.host_prefix
  account_id := pyOr truthyInt other.account_id self.account_id

/-- pydantic `model_dump` of `AccessTokenResponse`. -/
def AccessTokenResponse.model_dump (t : AccessTokenResponse) : YamlValue :=
  .map [("access_token", .str t.access_token),
        ("refresh_token", .str t.refresh_token),
        ("expires_in", .int t.expires_in),
        ("scope", .str t.scope),
        ("token_type", .str t.token_type),
        ("expires_at", .int t.expires_at)]

/-- pydantic `model_dump` of `DecodedAccessToken`. -/
def DecodedAccessToken.model_dump (t : DecodedAccessToken) : YamlValue :=
  .map [("access_token_response", t.access_token_response.model_dump),
        ("decoded_claims", .map t.decoded_claims)]

/-- pydantic `model_dump` of `DbtPlatformEnvironment`. -/
def DbtPlatformEnvironment.model_dump (e : DbtPlatformEnvironment) : YamlValue :=
  .map [("id", .int e.id), ("name", .str e.name),
        ("deployment_type", .str e.deployment_type)]

/-- `model_dump` of an optional nested model: `None` dumps to YAML null. -/
def dumpOpt {α : Type} (dump : α → YamlValue) : Option α → YamlValue
  | none => .null
  | some a => dump a

/-- pydantic `model_dump` of `DbtPlatformContext` (fields in declaration
order). -/
def DbtPlatformContext.model_dump (c : DbtPlatformContext) : YamlValue :=
  .map [("decoded_access_token",
          dumpOpt DecodedAccessToken.model_dump c.decoded_access_token),
        ("host_prefix", dumpOpt YamlValue.str c.host_prefix),
        ("dev_environment",
          dumpOpt DbtPlatformEnvironment.model_dump c.dev_environment),
        ("prod_environment",
          dumpOpt DbtPlatformEnvironment.model_dump c.prod_environment),
        ("account_id", dumpOpt YamlValue.int c.account_id)]

/-- Key lookup in a parsed YAML mapping (first occurrence, as in a Python
dict whose keys are unique). -/
def lookupKey (entries : List (String × YamlValue)) (k : String) :
    Option YamlValue :=
  match entries with
  | [] => none
  | (k', v) :: rest => if k' == k then some v else lookupKey rest k

/-- pydantic validation of a required `str` field (pydantic v2 does not
coerce numbers to strings). -/
def validateStr : YamlValue → Except String String
  | .str s => .ok s
  | _ => .error "Input should be a valid string"

/-- pydantic validation of a required `int` field (pydantic v2 accepts
integers and integer-valued decimal strings, and rejects booleans). -/
def validateInt : YamlValue → Except String Int
  | .int n => .ok n
  | .str s =>
    match s.toInt? with
    | some n => .ok n
    | none => .error "Input should be a valid integer"
  | _ => .error "Input should be a valid integer"

/-- Fetch a required field of a pydantic model from the parsed mapping. -/
def requireField (entries : List (String × YamlValue)) (k : String) :
    Except String YamlValue :=
  match lookupKey entries k with
  | some v => .ok v
  | none => .error "Field required"

/-- pydantic validation of `AccessTokenResponse` from a parsed value. -/
def validateAccessTokenResponse : YamlValue → Except String AccessTokenResponse
  | .map entries => do
    let access_token ← requireField entries "access_token" >>= validateStr
    let refresh_token ← requireField entries "refresh_token" >>= validateStr
    let expires_in ← requireField entries "expires_in" >>= validateInt
    let scope ← requireField entries "scope" >>= validateStr
    let token_type ← requireField entries "token_type" >>= validateStr
    let expires_at ← requireField entries "expires_at" >>= validateInt
    .ok { access_token, refresh_token, expires_in, scope, token_type,
          expires_at }
  | _ => .error "Input should be a valid dictionary"

/-- pydantic validation of a `dict[str, Any]` field. -/
def validateDict : YamlValue → Except String (List (String × YamlValue))
  | .map entries => .ok entries
  | _ => .error "Input should be a valid dictionary"

/-- pydantic validation of `DecodedAccessToken` from a parsed value. -/
def validateDecodedAccessToken : YamlValue → Except String DecodedAccessToken
  | .map entries => do
    let tr ← requireField entries "access_token_response" >>=
      validateAccessTokenResponse
    let claims ← requireField entries "decoded_claims" >>= validateDict
    .ok { access_token_response := tr, decoded_claims := claims }
  | _ => .error "Input should be a valid dictionary"

/-- pydantic validation of `DbtPlatformEnvironment` from a parsed value. -/
def validateEnvironment : YamlValue → Except String DbtPlatformEnvironment
  | .map entries => do
    let id ← requireField entries "id" >>= validateInt
    let name ← requireField entries "name" >>= validateStr
    let deployment_type ← requireField entries "deployment_type" >>= validateStr
    .ok { id, name, deployment_type }
  | _ => .error "Input should be a valid dictionary"

/-- pydantic validation of an optional field with default `None`: a missing
key or an explicit null yields `None`. -/
def validateOptField {α : Type} (entries : List (String × YamlValue))
    (k : String) (validate : YamlValue → Except String α) :
    Except String (Option α) :=
  match lookupKey entries k with
  | none => .ok none
  | some .null => .ok none
  | some v => (validate v).map some

/-- pydantic validation of `DbtPlatformContext` from a parsed mapping, as
performed by `DbtPlatformContext(**parsed_content)`: unknown keys are
ignored, missing optional keys default to `None`. -/
def validateDbtPlatformContext (entries : List (String × YamlValue)) :
    Except String DbtPlatformContext := do
  let decoded_access_token ←
    validateOptField entries "decoded_access_token" validateDecodedAccessToken
  let hp ← validateOptField entries "host_prefix" validateStr
  let dev_environment ←
    validateOptField entries "dev_environment" validateEnvironment
  let prod_environment ←
    validateOptField entries "prod_environment" validateEnvironment
  let account_id ← validateOptField entries "account_id" validateInt
  .ok { decoded_access_token, host_prefix := hp, dev_environment,
        prod_environment, account_id }

/-- The observable states of the persisted context file
(`config_location`), classifying the outcomes of `Path.exists`,
`read_text` and `yaml.safe_load` on it. -/
inductive FileState where
  | missing : FileState
  | blank : FileState
  | unreadable : FileState
  | unparseable : FileState
  | parsed (v : YamlValue) : FileState

/-- `DbtPlatformContextManager.read_context`
(`oauth/context_manager.py` lines 19-36): returns `None` when the file is
missing, blank, unreadable, fails YAML parsing, parses to null or to a
non-mapping, or fails pydantic validation; every exception is caught. -/
def read_context (file : FileState) : Option DbtPlatformContext :=
  match file with
  | .missing => none
  | .blank => none
  | .unreadable => none
  | .unparseable => none
  | .parsed v =>
    match v with
    | .map entries =>
      match validateDbtPlatformContext entries with
      | .ok c => some c
      | .error _ => none
    | _ => none

/-- `DbtPlatformContextManager.write_context_to_file`
(`oauth/context_manager.py` lines 60-65): the file afterwards holds the
YAML dump of `context.model_dump()`. -/
def write_context_to_file (context : DbtPlatformContext) : FileState :=
  .parsed context.model_dump

/-- `DbtPlatformContextManager.update_context`
(`oauth/context_manager.py` lines 38-52): read, merge via `override`,
write, return the merged context together with the new file state. -/
def update_context (file : FileState)
    (new_dbt_platform_context : DbtPlatformContext) :
    DbtPlatformContext × FileState :=
  let existing :=
    match read_context file with
    | some c => c
    | none => {}
  let next := existing.override new_dbt_platform_context
  (next, write_context_to_file next)

/-- `DefaultRefreshStrategy` (`oauth/refresh_strategy.py` lines 25-52):
timing configuration, defaults `buffer_seconds = 300` and
`error_retry_delay = 5.0` seconds. -/
structure DefaultRefreshStrategy where
  buffer_seconds : Int := 300
  error_retry_delay : Int := 5

/-- The duration computed by
`DefaultRefreshStrategy.wait_until_refresh_needed`
(`oauth/refresh_strategy.py` lines 41-48): `refresh_time = expires_at -
buffer_seconds`, then `max(refresh_time - current_time, 0)`; the method
sleeps exactly this long (the `if time_until_refresh > 0` guard only skips
a sleep of zero). -/
def DefaultRefreshStrategy.time_until_refresh (s : DefaultRefreshStrategy)
    (expires_at current_time : Int) : Int :=
  let refresh_time := expires_at - s.buffer_seconds
  max (refresh_time - current_time) 0

/-- The mutable state of an `OAuthTokenProvider`
(`oauth/token_provider.py`) relevant to `get_token`:
the in-memory token, the idempotent-start flag, and a count of background
refresh tasks created by `start_background_refresh` (each call to
`asyncio.create_task` increments it). -/
structure OAuthTokenProviderState where
  access_token_response : AccessTokenResponse
  refresh_started : Bool := false
  tasks_started : Nat := 0

/-- `OAuthTokenProvider.get_token` (`oauth/token_provider.py` lines 49-53):
start the background refresh once, guarded by `refresh_started`, then
return the in-memory access token. -/
def get_token (s : OAuthTokenProviderState) :
    String × OAuthTokenProviderState :=
  let s' :=
    if !s.refresh_started then
      { s with tasks_started := s.tasks_started + 1, refresh_started := true }
    else s
  (s'.access_token_response.access_token, s')

/-- `get_token` called `n` times in sequence; returns the list of returned
tokens (in call order) and the final provider state. -/
def get_token_iter : Nat → OAuthTokenProviderState →
    List String × OAuthTokenProviderState
  | 0, s => ([], s)
  | n + 1, s =>
    let (tok, s') := get_token s
    let (toks, s'') := get_token_iter n s'
    (tok :: toks, s'')

/-- One scheduling event observed by an iteration of the background
refresh worker: the wait raises, or the wait returns (at wall-clock time
`now`) and the refresh either raises or produces a new verified token. -/
inductive RefreshEvent where
  | waitRaises : RefreshEvent
  | refreshRaises (now : Int) : RefreshEvent
  | refreshOk (now : Int) (tok : AccessTokenResponse)
      (claims : List (String × YamlValue)) : RefreshEvent

/-- The state carried across iterations of
`OAuthTokenProvider._background_refresh_worker`: the provider state, the
context file, and the durations slept so far (most recent first). -/
structure WorkerState where
  provider : OAuthTokenProviderState
  file : FileState
  sleeps : List Int := []

/-- The outcome of one pass through a `while True` loop body. -/
inductive LoopOutcome (σ : Type) where
  | next (s : σ) : LoopOutcome σ
  | exits : LoopOutcome σ
  | raises (msg : String) : LoopOutcome σ

/-- The `try` block of one iteration of `_background_refresh_worker`
(`oauth/token_provider.py` lines 81-86): wait until refresh is needed
(computed from the in-memory token's `expires_at`), then `_refresh_token`
(lines 61-76): obtain and verify a new token, `update_context` it, and
replace the in-memory token. Exceptions inside are returned as errors. -/
def refresh_iteration_body (strategy : DefaultRefreshStrategy)
    (s : WorkerState) : RefreshEvent → Except String WorkerState
  | .waitRaises => .error "wait raised"
  | .refreshRaises now =>
    let _slept :=
      strategy.time_until_refresh s.provider.access_token_response.expires_at
        now
    .error "refresh raised"
  | .refreshOk now tok claims =>
    let slept :=
      strategy.time_until_refresh s.provider.access_token_response.expires_at
        now
    let ctx : DbtPlatformContext :=
      { decoded_access_token :=
          some { access_token_response := tok, decoded_claims := claims } }
    let (_, file') := update_context s.file ctx
    .ok { provider := { s.provider with access_token_response := tok },
          file := file',
          sleeps := slept :: s.sleeps }

/-- One full iteration of the `while True` loop of
`_background_refresh_worker` (`oauth/token_provider.py` lines 78-89): the
`try` body, with any exception caught, logged, and followed by
`wait_after_error` (a sleep of `error_retry_delay`). The loop body never
exits and never re-raises. -/
def background_refresh_worker_step (strategy : DefaultRefreshStrategy)
    (s : WorkerState) (e : RefreshEvent) : LoopOutcome WorkerState :=
  match refresh_iteration_body strategy s e with
  | .ok s' => .next s'
  | .error _ =>
    .next { s with sleeps := strategy.error_retry_delay :: s.sleeps }

/-- The HTTP response returned by the OAuth callback route: a redirect to
the error page, to the bare index page, or to the success page. -/
inductive CallbackResponse where
  | errorRedirect : CallbackResponse
  | indexRedirect : CallbackResponse
  | successRedirect : CallbackResponse

/-- Inputs of one request to `oauth_callback` (`oauth/fastapi_app.py`):
the query parameters, the app's `state_to_verifier` map and prior state,
the context file, and the outcomes of the two network operations
(`oauth_client.fetch_token` followed by `AccessTokenResponse` validation,
and `_fetch_jwks_and_verify_token`) in case they are reached. -/
structure CallbackInput where
  error : Option String
  code : Option String
  state : Option String
  state_to_verifier : List (String × String)
  file : FileState
  exchange : Except String AccessTokenResponse
  verify : Except String (List (String × YamlValue))
  app_decoded_access_token : Option DecodedAccessToken := none
  app_dbt_platform_context : Option DbtPlatformContext := none

/-- Observable outcome of one request to `oauth_callback`: the response,
the file afterwards, the context written by this request (if any), the
app state afterwards, and the `state_to_verifier` map afterwards. -/
structure CallbackOutcome where
  response : CallbackResponse
  file : FileState
  written : Option DbtPlatformContext
  app_decoded_access_token : Option DecodedAccessToken
  app_dbt_platform_context : Option DbtPlatformContext
  state_to_verifier : List (String × String)

/-- `dict.pop(state, None)`: remove the first binding of `k`, if any. -/
def popKey (m : List (String × String)) (k : String) :
    List (String × String) :=
  match m with
  | [] => []
  | (k', v) :: rest =>
    if k' == k then rest else (k', v) :: popKey rest k

/-- Key lookup in the `state_to_verifier` map. -/
def lookupVerifier (m : List (String × String)) (k : String) :
    Option String :=
  match m with
  | [] => none
  | (k', v) :: rest => if k' == k then some v else lookupVerifier rest k

/-- Python `int(x)` on a JSON claim value: accepts integers, booleans and
integer-literal strings, raises otherwise. -/
def pyInt : YamlValue → Except String Int
  | .int n => .ok n
  | .bool b => .ok (if b then 1 else 0)
  | .str s =>
    match s.toInt? with
    | some n => .ok n
    | none => .error "invalid literal for int"
  | _ => .error "int() argument"

/-- `_read_dbt_platform_context` in `create_app`
(`oauth/fastapi_app.py` lines 126-127): reads and parses the file with no
existence or type guards, so a missing, blank, unreadable, unparseable,
null or non-mapping file raises, as does pydantic validation failure. -/
def read_dbt_platform_context_app (file : FileState) :
    Except String DbtPlatformContext :=
  match file with
  | .missing => .error "FileNotFoundError"
  | .blank => .error "TypeError"
  | .unreadable => .error "OSError"
  | .unparseable => .error "YAMLError"
  | .parsed v =>
    match v with
    | .map entries => validateDbtPlatformContext entries
    | _ => .error "TypeError"

/-- `_update_dbt_platform_context` in `create_app`
(`oauth/fastapi_app.py` lines 129-143): read the file (unguarded), merge
via `override`, store on `app.state`, write the dump back. Returns the
merged context and the file afterwards. -/
def update_dbt_platform_context_app (file : FileState)
    (new_dbt_platform_context : DbtPlatformContext) :
    Except String (DbtPlatformContext × FileState) := do
  let existing ← read_dbt_platform_context_app file
  let next := existing.override new_dbt_platform_context
  .ok (next, FileState.parsed next.model_dump)

/-- The `DbtPlatformContext(user_id=int(decoded_claims["sub"]))`
constructor call at `oauth/fastapi_app.py` line 181: the pydantic model
declares no `user_id` field (`user_id` is a read-only `@property`), and
pydantic's default `extra` policy silently ignores unknown keyword
arguments, so the call constructs a context with every field `None`. -/
def context_from_user_id (_user_id : Int) : DbtPlatformContext := {}

/-- `oauth_callback` (`oauth/fastapi_app.py` lines 145-189): the complete
callback route. Error query parameter or missing `code` short-circuit;
inside the `try` block, a missing verifier for the given `state`, a failed
code exchange, a failed JWKS verification, a malformed `sub` claim or a
failed context read/update all produce the error redirect; only the fully
successful path writes the context file. -/
def oauth_callback (inp : CallbackInput) : CallbackOutcome :=
  let unchanged : CallbackOutcome :=
    { response := .errorRedirect, file := inp.file, written := none,
      app_decoded_access_token := inp.app_decoded_access_token,
      app_dbt_platform_context := inp.app_dbt_platform_context,
      state_to_verifier := inp.state_to_verifier }
  if inp.error.isSome then
    unchanged
  else if inp.code.isNone then
    { unchanged with response := .indexRedirect }
  else
    match inp.state with
    | none => unchanged
    | some st =>
      if st == "" then unchanged
      else
        -- try block: state_to_verifier.pop(state, None)
        let m' := popKey inp.state_to_verifier st
        match lookupVerifier inp.state_to_verifier st with
        | none => { unchanged with state_to_verifier := m' }
        | some _code_verifier =>
          match inp.exchange with
          | .error _ => { unchanged with state_to_verifier := m' }
          | .ok access_token_response =>
            match inp.verify with
            | .error _ => { unchanged with state_to_verifier := m' }
            | .ok decoded_claims =>
              let decoded : DecodedAccessToken :=
                { access_token_response, decoded_claims }
              let afterToken :=
                { unchanged with
                    app_decoded_access_token := some decoded,
                    state_to_verifier := m' }
              match lookupKey decoded_claims "sub" with
              | none => afterToken
              | some subv =>
                match pyInt subv with
                | .error _ => afterToken
                | .ok sub =>
                  match
                    update_dbt_platform_context_app inp.file
                      (context_from_user_id sub) with
                  | .error _ => afterToken
                  | .ok (next, file') =>
                    { response := .successRedirect, file := file',
                      written := some next,
                      app_decoded_access_token := some decoded,
                      app_dbt_platform_context := some next,
                      state_to_verifier := m' }

/-- The result of `get_dbt_platform_context`
(`config/settings.py` lines 143-170): either the cached persisted context
is returned without login, or the OAuth login flow is performed. -/
inductive PlatformContextResult where
  | cached (ctx : DbtPlatformContext) : PlatformContextResult
  | performsLogin : PlatformContextResult

/-- The guard of `get_dbt_platform_context`
(`config/settings.py` lines 153-162): Python `and` chain, so every field
is tested for truthiness (`account_id` of `0` and `host_prefix` of `""`
are falsy), and the token must expire more than 120 seconds after `now`. -/
def loginSkipCondition (ctx : DbtPlatformContext) (now : Int) : Bool :=
  truthyInt ctx.account_id &&
  truthyStr ctx.host_prefix &&
  truthyObj ctx.dev_environment &&
  truthyObj ctx.prod_environment &&
  (match ctx.decoded_access_token with
   | some tok => decide (tok.access_token_response.expires_at > now + 120)
   | none => false)

/-- `get_dbt_platform_context` (`config/settings.py` lines 143-170),
after acquiring the file lock: read the context; if the guard holds,
return it; otherwise find a port and run the login flow. -/
def get_dbt_platform_context (file : FileState) (now : Int) :
    PlatformContextResult :=
  match read_context file with
  | some dbt_ctx =>
    if loginSkipCondition dbt_ctx now then .cached dbt_ctx
    else .performsLogin
  | none => .performsLogin

/-- The file states that the spec calls "absent, empty, or malformed":
missing file, blank content, unreadable file, content that fails YAML
parsing, a document that is null or not a mapping, or a mapping that
fails pydantic validation. -/
def MalformedFile : FileState → Prop
  | .missing => True
  | .blank => True
  | .unreadable => True
  | .unparseable => True
  | .parsed v =>
    match v with
    | .map entries => ∃ msg, validateDbtPlatformContext entries = .error msg
    | _ => True

/-- A sample verified access-token response (`expires_at` is one hour
after time `0`). -/
def sample_token : AccessTokenResponse :=
  { access_token := "tok-abc", refresh_token := "refresh-xyz",
    expires_in := 3600, scope := "user_access offline_access",
    token_type := "Bearer", expires_at := 3600 }

/-- A context holding only a fresh decoded token, as persisted by a token
refresh with no environment selection. -/
def fresh_token_context : DbtPlatformContext :=
  { decoded_access_token :=
      some { access_token_response := sample_token, decoded_claims := [] } }

/-- A fully populated context: fresh token, account, host and both
environment selections. -/
def complete_context : DbtPlatformContext :=
  { decoded_access_token :=
      some { access_token_response := sample_token,
             decoded_claims := [("sub", .str "123")] },
    host_prefix := some "acme",
    dev_environment :=
      some { id := 1, name := "dev", deployment_type := "development" },
    prod_environment :=
      some { id := 2, name := "prod", deployment_type := "production" },
    account_id := some 7 }

/-- A callback request in which every step succeeds: valid `code`, a
`state` bound in `state_to_verifier`, successful code exchange, successful
JWKS verification with claims `{sub: "123"}`, and a context file currently
holding an empty YAML mapping. -/
def successful_callback_input : CallbackInput :=
  { error := none, code := some "authcode", state := some "state-1",
    state_to_verifier := [("state-1", "verifier-1")],
    file := .parsed (.map []),
    exchange := .ok sample_token,
    verify := .ok [("sub", .int 123)] }

/-! ## Helper lemmas -/

theorem truthyObj_eq_isSome {α : Type} (o : Option α) :
    truthyObj o = o.isSome := by
  cases o <;> rfl

theorem truthyInt_none : truthyInt none = false := rfl

theorem truthyStr_none : truthyStr none = false := rfl

theorem truthyObj_none {α : Type} : truthyObj (none : Option α) = false := rfl

theorem read_write_round_trip (c : DbtPlatformContext) :
    read_context (FileState.parsed (DbtPlatformContext.model_dump c))
      = some c := by
  obtain ⟨dat, hp, dev, prd, acc⟩ := c
  cases dat <;> cases hp <;> cases dev <;> cases prd <;> cases acc <;> rfl

theorem get_token_iter_of_started (n : Nat) (s : OAuthTokenProviderState)
    (h : s.refresh_started = true) :
    get_token_iter n s
      = (List.replicate n s.access_token_response.access_token, s) := by
  induction n with
  | zero => rfl
  | succ n ih => simp [get_token_iter, get_token, h, ih, List.replicate_succ]

/-! ## Claim theorems -/

/-- C3: for every `expires_at`, buffer and current time `now`, the refresh
scheduler's computed wait equals `max(expires_at - buffer - now, 0)`; with
`expires_at = now + 3600` and buffer `300` the wait is `3300` seconds, and
when `expires_at` is already within the buffer window the wait is `0`. -/
theorem wait_until_refresh_formula (expires_at b d now : Int) :
    DefaultRefreshStrategy.time_until_refresh ⟨b, d⟩ expires_at now
        = max (expires_at - b - now) 0
    ∧ DefaultRefreshStrategy.time_until_refresh ⟨300, d⟩ (now + 3600) now
        = 3300
    ∧ (expires_at ≤ now + b →
        DefaultRefreshStrategy.time_until_refresh ⟨b, d⟩ expires_at now
          = 0) := by
  refine ⟨rfl, ?_, fun h => ?_⟩
  · simp only [DefaultRefreshStrategy.time_until_refresh]
    omega
  · simp only [DefaultRefreshStrategy.time_until_refresh]
    omega

/-- Witness for C3 at `expires_at = 3700`, `buffer = 300`, `now = 100`
(first two parts) and at `expires_at = 150`, already inside the buffer
window (third part). -/
theorem wait_until_refresh_formula_witness :
    DefaultRefreshStrategy.time_until_refresh ⟨300, 5⟩ 3700 100
        = max (3700 - 300 - 100) 0
    ∧ DefaultRefreshStrategy.time_until_refresh ⟨300, 5⟩ (100 + 3600) 100
        = 3300
    ∧ DefaultRefreshStrategy.time_until_refresh ⟨300, 5⟩ 150 100 = 0 :=
  ⟨(wait_until_refresh_formula 3700 300 5 100).1,
   (wait_until_refresh_formula 3700 300 5 100).2.1,
   (wait_until_refresh_formula 150 300 5 100).2.2 (by decide)⟩

/-- C4: for every persisted-context file state that is missing, blank,
unreadable, unparseable, or otherwise malformed (a non-mapping document or
a mapping failing pydantic validation), `read_context` returns `none`.
`read_context` is a total function into `Option`: the source wraps every
parse and validation step in `try/except`, so no exception reaches the
caller. -/
theorem read_context_tolerates_malformed (fs : FileState)
    (h : MalformedFile fs) : read_context fs = none := by
  cases fs with
  | missing => rfl
  | blank => rfl
  | unreadable => rfl
  | unparseable => rfl
  | parsed v =>
    cases v with
    | map entries =>
      obtain ⟨msg, hmsg⟩ := h
      simp [read_context, hmsg]
    | null => rfl
    | bool b => rfl
    | int n => rfl
    | str s => rfl
    | list items => rfl

/-- Witness for C4: a missing file and a mapping whose `account_id` fails
integer validation both read back as `none`. -/
theorem read_context_tolerates_malformed_witness :
    read_context .missing = none
    ∧ read_context (.parsed (.map [("account_id", .list [])])) = none :=
  ⟨read_context_tolerates_malformed .missing trivial,
   read_context_tolerates_malformed _ ⟨"Input should be a valid integer", rfl⟩⟩

/-- C8: writing any `DbtPlatformContext` (any combination of optional
fields set or absent) with `write_context_to_file` and reading it back
with `read_context` returns an equal context. -/
theorem write_then_read_round_trip (ctx : DbtPlatformContext) :
    read_context (write_context_to_file ctx) = some ctx :=
  read_write_round_trip ctx

/-- C10: the field-wise merge of `override` uses Python `or`, so a
present-but-falsy field of the new context — `account_id = 0`, an empty
`host_prefix` — never overrides the existing value, exactly as if the
field were absent. -/
theorem override_falsy_never_overrides (self other : DbtPlatformContext) :
    (other.account_id = some 0 →
      (self.override other).account_id = self.account_id)
    ∧ (other.host_prefix = some "" →
        DbtPlatformContext.host_prefix (self.override other)
          = self.host_prefix)
    ∧ (other.account_id = some 0 →
        (self.override other).account_id
          = (self.override { other with account_id := none }).account_id)
    ∧ (other.host_prefix = some "" →
        DbtPlatformContext.host_prefix (self.override other)
          = DbtPlatformContext.host_prefix
              (self.override { other with host_prefix := none })) := by
  refine ⟨fun h => ?_, fun h => ?_, fun h => ?_, fun h => ?_⟩ <;>
    simp [DbtPlatformContext.override, pyOr, h, truthyInt, truthyStr]

/-- Witness for C10: an update carrying `account_id = 0` and
`host_prefix = ""` leaves the complete context's values in place. -/
theorem override_falsy_never_overrides_witness :
    (complete_context.override
        { account_id := some 0, host_prefix := some "" }).account_id
      = complete_context.account_id
    ∧ DbtPlatformContext.host_prefix
        (complete_context.override
          { account_id := some 0, host_prefix := some "" })
      = complete_context.host_prefix :=
  ⟨(override_falsy_never_overrides complete_context
      { account_id := some 0, host_prefix := some "" }).1 rfl,
   (override_falsy_never_overrides complete_context
      { account_id := some 0, host_prefix := some "" }).2.1 rfl⟩

/-- C2 counterexample: the claim's merge law fails for a present-but-falsy
field. `A` sets `account_id` to `0` (present in the claim's sense), `B`
leaves it unset, yet `update(A)` followed by `update(B)` yields a context
whose `account_id` is `none`, not `A`'s value. -/
theorem update_merge_presence_cex :
    (({ account_id := some 0 } : DbtPlatformContext).account_id).isSome
        = true
    ∧ (update_context
          (update_context .missing { account_id := some 0 }).2 {}).1.account_id
        ≠ ({ account_id := some 0 } : DbtPlatformContext).account_id := by
  constructor
  · rfl
  · have hnone : (update_context
        (update_context .missing { account_id := some 0 }).2 {}).1.account_id
          = none := rfl
    rw [hnone]
    exact fun h => Option.noConfusion h

/-- C2 amended: the merge performed by `update_context` takes, field by
field, the new context's value when it is present *and truthy* (Python
`or`), otherwise keeps the existing value; hence `update(A)` followed by
`update(B)` where `B` leaves field X unset yields A's value for X whenever
A's value for X is truthy. -/
theorem update_merge_law_truthy (fs : FileState)
    (A B : DbtPlatformContext) :
    (truthyInt A.account_id = true → B.account_id = none →
      (update_context (update_context fs A).2 B).1.account_id
        = A.account_id)
    ∧ (truthyStr A.host_prefix = true → B.host_prefix = none →
        DbtPlatformContext.host_prefix
            ((update_context (update_context fs A).2 B).1)
          = A.host_prefix)
    ∧ (A.decoded_access_token.isSome = true → B.decoded_access_token = none →
        (update_context (update_context fs A).2 B).1.decoded_access_token
          = A.decoded_access_token)
    ∧ (A.dev_environment.isSome = true → B.dev_environment = none →
        (update_context (update_context fs A).2 B).1.dev_environment
          = A.dev_environment)
    ∧ (A.prod_environment.isSome = true → B.prod_environment = none →
        (update_context (update_context fs A).2 B).1.prod_environment
          = A.prod_environment) := by
  have h2 : (update_context (update_context fs A).2 B).1
      = ((match read_context fs with
          | some c => c
          | none => ({} : DbtPlatformContext)).override A).override B := by
    simp [update_context, write_context_to_file, read_write_round_trip]
  refine ⟨fun hA hB => ?_, fun hA hB => ?_, fun hA hB => ?_,
    fun hA hB => ?_, fun hA hB => ?_⟩ <;>
    rw [h2] <;>
    simp [DbtPlatformContext.override, pyOr, hA, hB, truthyObj_eq_isSome,
      truthyInt_none, truthyStr_none]

/-- Witness for C2 amended: starting from no file, `update` with the
complete context then `update` with an empty partial context keeps every
field of the complete context. -/
theorem update_merge_law_truthy_witness :
    (update_context
        (update_context .missing complete_context).2 {}).1.account_id
      = complete_context.account_id
    ∧ DbtPlatformContext.host_prefix
        ((update_context (update_context .missing complete_context).2 {}).1)
      = complete_context.host_prefix
    ∧ (update_context
        (update_context .missing complete_context).2 {}).1.decoded_access_token
      = complete_context.decoded_access_token :=
  ⟨(update_merge_law_truthy .missing complete_context {}).1 rfl rfl,
   (update_merge_law_truthy .missing complete_context {}).2.1 rfl rfl,
   (update_merge_law_truthy .missing complete_context {}).2.2.1 rfl rfl⟩

/-- C5: calling `get_token` any number `n ≥ 1` of times on a managed
provider whose refresh loop has not started yet starts exactly one
background refresh task — the first call starts it, every later call
observes `refresh_started` and starts nothing — and each call returns the
in-memory access token. -/
theorem get_token_single_refresh_start (n : Nat)
    (s : OAuthTokenProviderState) (hn : 1 ≤ n)
    (hs : s.refresh_started = false) :
    (get_token_iter n s).1
        = List.replicate n s.access_token_response.access_token
    ∧ (get_token_iter n s).2.tasks_started = s.tasks_started + 1
    ∧ (get_token_iter n s).2.refresh_started = true := by
  obtain ⟨m, rfl⟩ : ∃ m, n = m + 1 := ⟨n - 1, by omega⟩
  have hstart : get_token s = (s.access_token_response.access_token,
      { s with tasks_started := s.tasks_started + 1,
               refresh_started := true }) := by
    simp [get_token, hs]
  have hrest := get_token_iter_of_started m
    { s with tasks_started := s.tasks_started + 1, refresh_started := true }
    rfl
  simp [get_token_iter, hstart, hrest, List.replicate_succ]

/-- Witness for C5: three `get_token` calls on a fresh provider start one
task and return the token three times. -/
theorem get_token_single_refresh_start_witness :
    (get_token_iter 3 { access_token_response := sample_token }).1
        = List.replicate 3 "tok-abc"
    ∧ (get_token_iter 3 { access_token_response := sample_token
        }).2.tasks_started = 1 :=
  ⟨(get_token_single_refresh_start 3
      { access_token_response := sample_token } (by decide) rfl).1,
   (get_token_single_refresh_start 3
      { access_token_response := sample_token } (by decide) rfl).2.1⟩

/-- C6: one iteration of the background refresh worker never exits the
loop and never re-raises: for every state and scheduling event the loop
body yields `.next`, and when the iteration raises (during waiting or
refreshing) the worker performs the fixed `error_retry_delay` sleep and
re-enters the loop with the provider state — in particular the in-memory
token, its `expires_at`, and the context file — unchanged, so the failure
neither prevents future refresh attempts nor reaches `get_token`
callers. -/
theorem background_refresh_worker_never_escapes
    (strategy : DefaultRefreshStrategy) (s : WorkerState)
    (e : RefreshEvent) :
    (∃ s', background_refresh_worker_step strategy s e = .next s')
    ∧ background_refresh_worker_step strategy s .waitRaises
        = .next { s with sleeps := strategy.error_retry_delay :: s.sleeps }
    ∧ (∀ now : Int,
        background_refresh_worker_step strategy s (.refreshRaises now)
          = .next
              { s with sleeps := strategy.error_retry_delay :: s.sleeps }) := by
  refine ⟨?_, rfl, fun now => rfl⟩
  cases e with
  | waitRaises => exact ⟨_, rfl⟩
  | refreshRaises now => exact ⟨_, rfl⟩
  | refreshOk now tok claims => exact ⟨_, rfl⟩

/-- C9 counterexample: a persisted context holding only a token with far
more than the 120-second buffer remaining (expiry 3600, clock 0) is read
back successfully, yet `get_dbt_platform_context` still performs a login,
because the guard also requires `account_id`, `host_prefix` and both
environments. -/
theorem login_skip_fresh_token_cex :
    read_context (write_context_to_file fresh_token_context)
        = some fresh_token_context
    ∧ sample_token.expires_at > 0 + 120
    ∧ get_dbt_platform_context (write_context_to_file fresh_token_context) 0
        = .performsLogin :=
  ⟨rfl, by decide, rfl⟩

/-- C9 amended: the login flow is skipped (and the persisted context
returned) when the stored context read at the entry point has a truthy
`account_id` and `host_prefix`, both environment selections, and a token
with more than the 120-second buffer remaining before expiry. -/
theorem login_skip_requires_complete_context (fs : FileState)
    (ctx : DbtPlatformContext) (tok : DecodedAccessToken) (now : Int)
    (hread : read_context fs = some ctx)
    (hacc : truthyInt ctx.account_id = true)
    (hhp : truthyStr ctx.host_prefix = true)
    (hdev : ctx.dev_environment.isSome = true)
    (hprod : ctx.prod_environment.isSome = true)
    (htok : ctx.decoded_access_token = some tok)
    (hfresh : tok.access_token_response.expires_at > now + 120) :
    get_dbt_platform_context fs now = .cached ctx := by
  have hcond : loginSkipCondition ctx now = true := by
    simp [loginSkipCondition, hacc, hhp, htok, truthyObj_eq_isSome, hdev,
      hprod, hfresh]
  simp [get_dbt_platform_context, hread, hcond]

/-- Witness for C9 amended: the complete context persisted to file is
returned at clock `0` without a login. -/
theorem login_skip_requires_complete_context_witness :
    get_dbt_platform_context (write_context_to_file complete_context) 0
      = .cached complete_context :=
  login_skip_requires_complete_context
    (write_context_to_file complete_context) complete_context
    { access_token_response := sample_token,
      decoded_claims := [("sub", .str "123")] }
    0 rfl rfl rfl rfl rfl rfl (by decide)

/-- C7: on any failure at any step of the login callback — an `error`
query parameter, a missing or empty `state`, a `state` with no stored
verifier (unknown or replayed), a failed code exchange, or a failed token
verification — `oauth_callback` returns the error redirect and does not
write the context file. -/
theorem oauth_callback_failure_no_write (inp : CallbackInput)
    (hfail :
      inp.error.isSome = true ∨
        (inp.code.isSome = true ∧
          (inp.state = none ∨ inp.state = some "" ∨
            (∃ st, inp.state = some st ∧
              lookupVerifier inp.state_to_verifier st = none) ∨
            (∃ msg, inp.exchange = .error msg) ∨
            (∃ msg, inp.verify = .error msg)))) :
    (oauth_callback inp).response = .errorRedirect
    ∧ (oauth_callback inp).written = none
    ∧ (oauth_callback inp).file = inp.file := by
  by_cases herr : inp.error.isSome = true
  · simp [oauth_callback, herr]
  · rw [Bool.not_eq_true] at herr
    have hcode : inp.code.isSome = true := by
      rcases hfail with h | ⟨h, _⟩
      · rw [herr] at h; exact absurd h (by simp)
      · exact h
    have hrest : inp.state = none ∨ inp.state = some "" ∨
        (∃ st, inp.state = some st ∧
          lookupVerifier inp.state_to_verifier st = none) ∨
        (∃ msg, inp.exchange = .error msg) ∨
        (∃ msg, inp.verify = .error msg) := by
      rcases hfail with h | ⟨_, h⟩
      · rw [herr] at h; exact absurd h (by simp)
      · exact h
    obtain ⟨c, hc⟩ := Option.isSome_iff_exists.mp hcode
    rcases hrest with hs | hs | ⟨st, hst, hlk⟩ | ⟨msg, hex⟩ | ⟨msg, hver⟩
    · simp [oauth_callback, herr, hc, hs]
    · simp [oauth_callback, herr, hc, hs]
    · by_cases hempty : st = ""
      · simp [oauth_callback, herr, hc, hst, hempty]
      · simp [oauth_callback, herr, hc, hst, hlk, hempty]
    · cases hstv : inp.state with
      | none => simp [oauth_callback, herr, hc, hstv]
      | some st =>
        by_cases hempty : st = ""
        · simp [oauth_callback, herr, hc, hstv, hempty]
        · cases hv : lookupVerifier inp.state_to_verifier st with
          | none => simp [oauth_callback, herr, hc, hstv, hempty, hv]
          | some v =>
            simp [oauth_callback, herr, hc, hstv, hempty, hv, hex]
    · cases hstv : inp.state with
      | none => simp [oauth_callback, herr, hc, hstv]
      | some st =>
        by_cases hempty : st = ""
        · simp [oauth_callback, herr, hc, hstv, hempty]
        · cases hv : lookupVerifier inp.state_to_verifier st with
          | none => simp [oauth_callback, herr, hc, hstv, hempty, hv]
          | some v =>
            cases hexch : inp.exchange with
            | error e =>
              simp [oauth_callback, herr, hc, hstv, hempty, hv, hexch]
            | ok tok =>
              simp [oauth_callback, herr, hc, hstv, hempty, hv, hexch, hver]

/-- Witness for C7: a callback carrying `error=access_denied` produces the
error redirect and leaves the (empty-mapping) context file unwritten. -/
theorem oauth_callback_failure_no_write_witness :
    (oauth_callback { successful_callback_input with
        error := some "access_denied" }).response
        = CallbackResponse.errorRedirect
    ∧ (oauth_callback { successful_callback_input with
        error := some "access_denied" }).written = none :=
  ⟨(oauth_callback_failure_no_write
      { successful_callback_input with error := some "access_denied" }
      (Or.inl rfl)).1,
   (oauth_callback_failure_no_write
      { successful_callback_input with error := some "access_denied" }
      (Or.inl rfl)).2.1⟩

/-- C1: a fully successful OAuth callback — valid `code` and bound
`state`, successful token exchange, successful JWKS verification — returns
the success redirect, yet the context it persists contains *no* decoded
access token: `DbtPlatformContext(user_id=...)` at `fastapi_app.py:181`
passes a keyword that is not a pydantic field (`user_id` is a read-only
property), so an empty partial context is merged into the file and the
token exists only in the server's transient `app.state`. The claim's
requirement that the decoded token be persisted (and be available to
`get_token()` through the context store) fails on this code. -/
theorem oauth_callback_success_persists_no_token :
    (oauth_callback successful_callback_input).response
        = CallbackResponse.successRedirect
    ∧ (oauth_callback successful_callback_input).written
        = some ({} : DbtPlatformContext)
    ∧ read_context (oauth_callback successful_callback_input).file
        = some ({} : DbtPlatformContext)
    ∧ (∃ c, (oauth_callback successful_callback_input).written = some c
        ∧ c.decoded_access_token = none)
    ∧ (oauth_callback successful_callback_input).app_decoded_access_token
        = some { access_token_response := sample_token,
                 decoded_claims := [("sub", .int 123)] } :=
  ⟨rfl, rfl, rfl, ⟨{}, rfl, rfl⟩, rfl⟩

end DbtMcp
